import Mathlib

/-!
Verification of the MOAT mock ORCID registry server.

A shallow embedding of the Go sources of `jechols/moat`:

* the record data model and its struct tags (`main.go`, "Data Models" section),
* the XML and JSON encodings produced by Go's `encoding/xml` / `encoding/json`
  on those tagged structs, and the XML decoding performed by `xml.Unmarshal`,
* the content-negotiation logic of `writeResponse`,
* the HTTP handlers, and the seeded in-memory store.

XML documents are modelled at the token level (the level at which
`xml.Decoder` and the semantic comparison `assertXMLEqual` in
`models/person_test.go` operate): an element has a name, a list of
attributes, and a list of child nodes; character data is a text node.
Element and attribute names are the Go struct-tag names; a namespaced name
is written exactly as in the Go tag, i.e. "namespaceURI localName", and an
unqualified name is a bare string, so name matching by string equality
coincides with Go's match on (namespace, local name).
-/

/-- An XML node, at the token/tree level of Go's `encoding/xml`. -/
inductive XNode where
  | elem (name : String) (attrs : List (String × String)) (children : List XNode)
  | text (s : String)

/-- A JSON value, as produced by Go's `encoding/json` for the model types
(only the shapes that actually occur: objects keep field order). -/
inductive Json where
  | null
  | bool (b : Bool)
  | num (i : Int)
  | str (s : String)
  | arr (elems : List Json)
  | obj (fields : List (String × Json))

/-! ## Go string primitives

`strings.HasPrefix`, `strings.Contains`, `strings.ToLower` (ASCII range),
and Go's decimal formatting/parsing (`strconv`), modelled over `List Char`.
-/

/-- Go `strings.HasPrefix`-style test on char lists. -/
def listStartsWith : List Char → List Char → Bool
  | _, [] => true
  | [], _ :: _ => false
  | c :: cs, p :: ps => c == p && listStartsWith cs ps

/-- Go `strings.Contains`-style test on char lists. -/
def listContains : List Char → List Char → Bool
  | s, sub =>
    if listStartsWith s sub then true
    else match s with
      | [] => false
      | _ :: rest => listContains rest sub

/-- Go `strings.HasPrefix s pre`. -/
def goHasPrefix (s pre : String) : Bool := listStartsWith s.data pre.data

/-- Go `strings.Contains s sub`. -/
def goContains (s sub : String) : Bool := listContains s.data sub.data

/-- Go `strings.ToLower` (the seeded names are ASCII, where `Char.toLower`
agrees with Go). -/
def goToLower (s : String) : String := String.mk (s.data.map Char.toLower)

/-- Go `string(s[0])`: the one-byte string holding the first byte of `s`
(the seeded names are nonempty ASCII; Go would panic on an empty string,
here we return the empty string). -/
def firstByteStr (s : String) : String :=
  match s.data with
  | [] => ""
  | c :: _ => String.mk [c]

/-! ### Decimal formatting (`strconv.Itoa` / `fmt %d`) and parsing
(`strconv.Atoi` / `strconv.ParseInt`). -/

/-- Digit accumulator for decimal formatting; `fuel` bounds the recursion
and is always taken `> n` so the fuel case is unreachable. -/
def natDigitsAux : Nat → Nat → List Char → List Char
  | 0, _, acc => acc
  | fuel + 1, n, acc =>
    if n < 10 then Nat.digitChar n :: acc
    else natDigitsAux fuel (n / 10) (Nat.digitChar (n % 10) :: acc)

/-- The decimal digits of `n`, most significant first. -/
def natToChars (n : Nat) : List Char := natDigitsAux (n + 1) n []

/-- Decimal string of a natural number. -/
def natToStr (n : Nat) : String := String.mk (natToChars n)

/-- Go `strconv.Itoa` / `fmt.Sprintf %d` on a (possibly negative) integer. -/
def intToStr (i : Int) : String :=
  if i < 0 then "-" ++ natToStr i.natAbs else natToStr i.natAbs

/-- The numeric value of a decimal digit character, if it is one
(Go checks the byte range as in `strconv`). -/
def charDigit? (c : Char) : Option Nat :=
  if '0' ≤ c ∧ c ≤ '9' then some (c.toNat - '0'.toNat) else none

/-- Left-to-right accumulation of decimal digits; fails at the first
non-digit character, as `strconv.ParseUint` does. -/
def parseRun (v : Nat) : List Char → Option Nat
  | [] => some v
  | c :: cs =>
    match charDigit? c with
    | some d => parseRun (v * 10 + d) cs
    | none => none

/-- Parse a nonempty all-digit character list. -/
def parseDigits? (l : List Char) : Option Nat :=
  match l with
  | [] => none
  | _ :: _ => parseRun 0 l

/-- Sign-then-digits form of `strconv.ParseInt(·, 10, 64)` on characters. -/
def parseIntChars? : List Char → Option Int
  | [] => none
  | c :: cs =>
    if c = '-' then (parseDigits? cs).map (fun n : Nat => -(n : Int))
    else if c = '+' then (parseDigits? cs).map (fun n : Nat => (n : Int))
    else (parseDigits? (c :: cs)).map (fun n : Nat => (n : Int))

/-- Go `strconv.Atoi` / `strconv.ParseInt(s, 10, 64)`: optional sign then
digits; the whole string must be consumed.  (Go's 64-bit range error cannot
occur on values produced by the model's encoders.) -/
def parseInt? (s : String) : Option Int := parseIntChars? s.data

/-- Go `strconv.FormatBool`, used by `encoding/xml` for bool fields. -/
def boolToStr : Bool → String
  | true => "true"
  | false => "false"

/-- Go `strconv.ParseBool`, used by `xml.Unmarshal` for bool fields. -/
def parseBool? (s : String) : Option Bool :=
  if s = "1" ∨ s = "t" ∨ s = "T" ∨ s = "TRUE" ∨ s = "true" ∨ s = "True" then some true
  else if s = "0" ∨ s = "f" ∨ s = "F" ∨ s = "FALSE" ∨ s = "false" ∨ s = "False" then
    some false
  else none

/-! ## XML helpers

The decoding side mirrors `xml.Unmarshal`'s per-struct behaviour on the
tagged model structs: a child element is matched to a struct field by its
(namespace-qualified) name; when several children match a scalar or struct
field the last one wins; for a slice field every matching child contributes
an item, in document order; a missing child leaves the field at its Go zero
value; character data of an element is the concatenation of its top-level
text nodes (nested elements do not contribute to a string field).
-/

/-- Does this node match element name `n`? (`XNode.text` never matches.) -/
def XNode.isNamed (n : String) : XNode → Bool
  | XNode.elem m _ _ => m == n
  | XNode.text _ => false

/-- The last child element named `n` (Go: the last match wins for
non-slice fields). -/
def lastMatch (n : String) : List XNode → Option XNode
  | [] => none
  | c :: cs =>
    match lastMatch n cs with
    | some r => some r
    | none => if c.isNamed n then some c else none

/-- All child elements named `n`, in document order (Go: slice fields). -/
def elemsNamed (n : String) : List XNode → List XNode
  | [] => []
  | c :: cs => if c.isNamed n then c :: elemsNamed n cs else elemsNamed n cs

/-- The concatenated top-level character data of a children list. -/
def textContent : List XNode → String
  | [] => ""
  | XNode.text s :: rest => s ++ textContent rest
  | XNode.elem _ _ _ :: rest => textContent rest

/-- Children of an element holding string `s`: Go's marshaller emits no
character data for the empty string. -/
def strChildren (s : String) : List XNode :=
  if s = "" then [] else [XNode.text s]

/-- An element with no attributes carrying a string. -/
def strElem (n : String) (s : String) : XNode := XNode.elem n [] (strChildren s)

/-- An element carrying a decimal-formatted integer. -/
def intElem (n : String) (i : Int) : XNode := XNode.elem n [] [XNode.text (intToStr i)]

/-- An element carrying a bool as `strconv.FormatBool`. -/
def boolElem (n : String) (b : Bool) : XNode := XNode.elem n [] [XNode.text (boolToStr b)]

/-- An element with no attributes and the given children. -/
def subElem (n : String) (cs : List XNode) : XNode := XNode.elem n [] cs

/-- Children contributed by an optional (`*T` with `omitempty`) struct
field: a nil pointer is omitted. -/
def optChildren (n : String) (enc : α → List XNode) : Option α → List XNode
  | none => []
  | some a => [subElem n (enc a)]

/-! Decoding field helpers (`xml.Unmarshal` behaviour per field kind). -/

/-- Decode a string field named `n`: character data of the last matching
child; missing means the zero value `""`. -/
def strField (n : String) (cs : List XNode) : String :=
  match lastMatch n cs with
  | some (XNode.elem _ _ cc) => textContent cc
  | _ => ""

/-- Decode an int field named `n`: `strconv.ParseInt` on the character
data (failure is a decode error); missing means `0`. -/
def intField (n : String) (cs : List XNode) : Option Int :=
  match lastMatch n cs with
  | some (XNode.elem _ _ cc) => parseInt? (textContent cc)
  | _ => some 0

/-- Decode a bool field named `n`: `strconv.ParseBool` on the character
data; missing means `false`. -/
def boolField (n : String) (cs : List XNode) : Option Bool :=
  match lastMatch n cs with
  | some (XNode.elem _ _ cc) => parseBool? (textContent cc)
  | _ => some false

/-- Decode a struct-valued field named `n`; a missing child yields the
nested zero value, i.e. the decoding of an empty children list. -/
def subField (n : String) (dec : List XNode → Option α) (cs : List XNode) : Option α :=
  match lastMatch n cs with
  | some (XNode.elem _ _ cc) => dec cc
  | _ => dec []

/-- Decode an optional (pointer) struct field named `n`: present allocates
the pointee, absent leaves the pointer nil. -/
def optSubField (n : String) (dec : List XNode → Option α) (cs : List XNode) :
    Option (Option α) :=
  match lastMatch n cs with
  | some (XNode.elem _ _ cc) => (dec cc).map some
  | _ => some none

/-- Decode a sequence of matching children, one item each, in order. -/
def decodeItems (dec : List XNode → Option α) : List XNode → Option (List α)
  | [] => some []
  | x :: xs => do
    let a ← match x with
      | XNode.elem _ _ cc => dec cc
      | XNode.text _ => none
    let rest ← decodeItems dec xs
    pure (a :: rest)

/-- Decode a slice field named `n`: one item per matching child, in order. -/
def listField (n : String) (dec : List XNode → Option α) (cs : List XNode) :
    Option (List α) :=
  decodeItems dec (elemsNamed n cs)

/-! ## The record model (Go structs of `main.go`, "Data Models" section)

Field names, order and the JSON/XML tag names are those of the source; Go
pointers (`*Biography` etc., all tagged `omitempty`) become `Option`, Go
slices become `List`, `int`/`int64` become `Int`.
-/

/-- Go `Value`: the one-field value wrapper. -/
structure Value where
  value : String
deriving Repr, DecidableEq

/-- Go `Name`. -/
structure Name where
  givenNames : Value
  familyName : Value
  creditName : Value
deriving Repr, DecidableEq

/-- Go `Biography`. -/
structure Biography where
  content : String
deriving Repr, DecidableEq

/-- Go `Email`. -/
structure Email where
  email : String
  verified : Bool
  primary : Bool
  visibility : String
deriving Repr, DecidableEq

/-- Go `Emails`. -/
structure Emails where
  email : List Email
deriving Repr, DecidableEq

/-- Go `ResearcherUrl`. -/
structure ResearcherUrl where
  urlName : String
  url : Value
deriving Repr, DecidableEq

/-- Go `ResearcherUrls`. -/
structure ResearcherUrls where
  researcherUrl : List ResearcherUrl
deriving Repr, DecidableEq

/-- Go `Person`. -/
structure Person where
  name : Name
  biography : Option Biography
  emails : Option Emails
  researcherUrls : Option ResearcherUrls
deriving Repr, DecidableEq

/-- Go `OrcidIdentifier`. -/
structure OrcidIdentifier where
  uri : String
  path : String
  host : String
deriving Repr, DecidableEq

/-- Go `LastModified` (a Unix-milliseconds timestamp wrapper). -/
structure LastModified where
  value : Int
deriving Repr, DecidableEq

/-- Go `Title` (the nested title wrapper). -/
structure Title where
  title : Value
deriving Repr, DecidableEq

/-- Go `WorkSummary`. -/
structure WorkSummary where
  putCode : Int
  title : Title
  workType : String
  lastModified : LastModified
deriving Repr, DecidableEq

/-- Go `WorkGroup`. -/
structure WorkGroup where
  workSummary : List WorkSummary
deriving Repr, DecidableEq

/-- Go `WorkSummaryGroup`. -/
structure WorkSummaryGroup where
  group : List WorkGroup
deriving Repr, DecidableEq

/-- Go `Org`. -/
structure Org where
  name : String
deriving Repr, DecidableEq

/-- Go `EmploymentSummary`. -/
structure EmploymentSummary where
  putCode : Int
  departmentName : String
  roleTitle : String
  organization : Org
deriving Repr, DecidableEq

/-- Go `AffiliationGroup`. -/
structure AffiliationGroup where
  summaries : List EmploymentSummary
deriving Repr, DecidableEq

/-- Go `EmploymentSummaryGroup`. -/
structure EmploymentSummaryGroup where
  affiliationGroup : List AffiliationGroup
deriving Repr, DecidableEq

/-- Go `Activities`. -/
structure Activities where
  works : WorkSummaryGroup
  employment : EmploymentSummaryGroup
deriving Repr, DecidableEq

/-- Go `OrcidRecord` — the spec's FullRecord. -/
structure OrcidRecord where
  orcidIdentifier : OrcidIdentifier
  person : Person
  activities : Activities
deriving Repr, DecidableEq

/-- Go `SearchResult`. -/
structure SearchResult where
  orcidIdentifier : OrcidIdentifier
deriving Repr, DecidableEq

/-- Go `SearchResponse`. -/
structure SearchResponse where
  result : List SearchResult
  numFound : Int
deriving Repr, DecidableEq

/-! ## XML encoding of the model (Go `xml.Marshal` on the tagged structs)

Each `encX` gives the children of the element representing an `X` value,
one child per struct field, in field order, named by the field's `xml` tag.
-/

def encValue (v : Value) : List XNode := [strElem "value" v.value]

def encName (n : Name) : List XNode :=
  [ subElem "given-names" (encValue n.givenNames)
  , subElem "family-name" (encValue n.familyName)
  , subElem "credit-name" (encValue n.creditName) ]

def encBiography (b : Biography) : List XNode := [strElem "content" b.content]

def encEmail (e : Email) : List XNode :=
  [ strElem "email" e.email
  , boolElem "verified" e.verified
  , boolElem "primary" e.primary
  , strElem "visibility" e.visibility ]

def encEmails (es : Emails) : List XNode :=
  es.email.map (fun e => subElem "email" (encEmail e))

def encResearcherUrl (r : ResearcherUrl) : List XNode :=
  [ strElem "url-name" r.urlName
  , subElem "url" (encValue r.url) ]

def encResearcherUrls (rs : ResearcherUrls) : List XNode :=
  rs.researcherUrl.map (fun r => subElem "researcher-url" (encResearcherUrl r))

def encPerson (p : Person) : List XNode :=
  subElem "name" (encName p.name) ::
    (optChildren "biography" encBiography p.biography ++
     optChildren "emails" encEmails p.emails ++
     optChildren "researcher-urls" encResearcherUrls p.researcherUrls)

def encOrcidIdentifier (o : OrcidIdentifier) : List XNode :=
  [ strElem "uri" o.uri
  , strElem "path" o.path
  , strElem "host" o.host ]

def encLastModified (lm : LastModified) : List XNode := [intElem "value" lm.value]

def encTitle (t : Title) : List XNode := [subElem "title" (encValue t.title)]

def encWorkSummary (w : WorkSummary) : List XNode :=
  [ intElem "put-code" w.putCode
  , subElem "title" (encTitle w.title)
  , strElem "type" w.workType
  , subElem "last-modified-date" (encLastModified w.lastModified) ]

def encWorkGroup (g : WorkGroup) : List XNode :=
  g.workSummary.map (fun w => subElem "work-summary" (encWorkSummary w))

def encWorkSummaryGroup (g : WorkSummaryGroup) : List XNode :=
  g.group.map (fun w => subElem "group" (encWorkGroup w))

def encOrg (o : Org) : List XNode := [strElem "name" o.name]

def encEmploymentSummary (e : EmploymentSummary) : List XNode :=
  [ intElem "put-code" e.putCode
  , strElem "department-name" e.departmentName
  , strElem "role-title" e.roleTitle
  , subElem "organization" (encOrg e.organization) ]

def encAffiliationGroup (g : AffiliationGroup) : List XNode :=
  g.summaries.map (fun e => subElem "employment-summary" (encEmploymentSummary e))

def encEmploymentSummaryGroup (g : EmploymentSummaryGroup) : List XNode :=
  g.affiliationGroup.map (fun a => subElem "affiliation-group" (encAffiliationGroup a))

def encActivities (a : Activities) : List XNode :=
  [ subElem "works" (encWorkSummaryGroup a.works)
  , subElem "employments" (encEmploymentSummaryGroup a.employment) ]

def encOrcidRecordChildren (r : OrcidRecord) : List XNode :=
  [ subElem "orcid-identifier" (encOrcidIdentifier r.orcidIdentifier)
  , subElem "person" (encPerson r.person)
  , subElem "activities-summary" (encActivities r.activities) ]

/-- Go `xml.Marshal` of a full record: root element `record` (the struct's
`XMLName` tag). -/
def xmlEncodeRecord (r : OrcidRecord) : XNode :=
  XNode.elem "record" [] (encOrcidRecordChildren r)

def encSearchResult (s : SearchResult) : List XNode :=
  [subElem "orcid-identifier" (encOrcidIdentifier s.orcidIdentifier)]

def encSearchResponse (s : SearchResponse) : List XNode :=
  (s.result.map (fun r => subElem "result" (encSearchResult r))) ++
    [intElem "num-found" s.numFound]

/-- Go `xml.Marshal` of a search response: root name is the literal tag
`search:search` of the struct's `XMLName`. -/
def xmlEncodeSearch (s : SearchResponse) : XNode :=
  XNode.elem "search:search" [] (encSearchResponse s)

/-! ## XML decoding of the model (Go `xml.Unmarshal` on the same tags) -/

def decValue (cs : List XNode) : Option Value := some ⟨strField "value" cs⟩

def decName (cs : List XNode) : Option Name := do
  let g ← subField "given-names" decValue cs
  let f ← subField "family-name" decValue cs
  let c ← subField "credit-name" decValue cs
  pure ⟨g, f, c⟩

def decBiography (cs : List XNode) : Option Biography := some ⟨strField "content" cs⟩

def decEmail (cs : List XNode) : Option Email := do
  let v ← boolField "verified" cs
  let p ← boolField "primary" cs
  pure ⟨strField "email" cs, v, p, strField "visibility" cs⟩

def decEmails (cs : List XNode) : Option Emails :=
  (listField "email" decEmail cs).map Emails.mk

def decResearcherUrl (cs : List XNode) : Option ResearcherUrl := do
  let u ← subField "url" decValue cs
  pure ⟨strField "url-name" cs, u⟩

def decResearcherUrls (cs : List XNode) : Option ResearcherUrls :=
  (listField "researcher-url" decResearcherUrl cs).map ResearcherUrls.mk

def decPerson (cs : List XNode) : Option Person := do
  let nm ← subField "name" decName cs
  let bio ← optSubField "biography" decBiography cs
  let em ← optSubField "emails" decEmails cs
  let ru ← optSubField "researcher-urls" decResearcherUrls cs
  pure ⟨nm, bio, em, ru⟩

def decOrcidIdentifier (cs : List XNode) : Option OrcidIdentifier :=
  some ⟨strField "uri" cs, strField "path" cs, strField "host" cs⟩

def decLastModified (cs : List XNode) : Option LastModified :=
  (intField "value" cs).map LastModified.mk

def decTitle (cs : List XNode) : Option Title :=
  (subField "title" decValue cs).map Title.mk

def decWorkSummary (cs : List XNode) : Option WorkSummary := do
  let pc ← intField "put-code" cs
  let t ← subField "title" decTitle cs
  let lm ← subField "last-modified-date" decLastModified cs
  pure ⟨pc, t, strField "type" cs, lm⟩

def decWorkGroup (cs : List XNode) : Option WorkGroup :=
  (listField "work-summary" decWorkSummary cs).map WorkGroup.mk

def decWorkSummaryGroup (cs : List XNode) : Option WorkSummaryGroup :=
  (listField "group" decWorkGroup cs).map WorkSummaryGroup.mk

def decOrg (cs : List XNode) : Option Org := some ⟨strField "name" cs⟩

def decEmploymentSummary (cs : List XNode) : Option EmploymentSummary := do
  let pc ← intField "put-code" cs
  let o ← subField "organization" decOrg cs
  pure ⟨pc, strField "department-name" cs, strField "role-title" cs, o⟩

def decAffiliationGroup (cs : List XNode) : Option AffiliationGroup :=
  (listField "employment-summary" decEmploymentSummary cs).map AffiliationGroup.mk

def decEmploymentSummaryGroup (cs : List XNode) : Option EmploymentSummaryGroup :=
  (listField "affiliation-group" decAffiliationGroup cs).map EmploymentSummaryGroup.mk

def decActivities (cs : List XNode) : Option Activities := do
  let w ← subField "works" decWorkSummaryGroup cs
  let e ← subField "employments" decEmploymentSummaryGroup cs
  pure ⟨w, e⟩

def decOrcidRecordChildren (cs : List XNode) : Option OrcidRecord := do
  let oi ← subField "orcid-identifier" decOrcidIdentifier cs
  let p ← subField "person" decPerson cs
  let a ← subField "activities-summary" decActivities cs
  pure ⟨oi, p, a⟩

/-- Go `xml.Unmarshal` into `OrcidRecord`: the root element must carry the
struct's `XMLName` (`record`); otherwise decoding fails. -/
def xmlDecodeRecord (x : XNode) : Option OrcidRecord :=
  match x with
  | XNode.elem n _ cs => if n = "record" then decOrcidRecordChildren cs else none
  | XNode.text _ => none

/-! ## Serialization to wire bytes

A plain serializer for the token tree (used only for the response-body
shape; the round-trip and equality claims live at the token level, where
`assertXMLEqual` compares documents). -/

def escapeXmlChar (c : Char) : String :=
  if c = '<' then "&lt;"
  else if c = '>' then "&gt;"
  else if c = '&' then "&amp;"
  else if c = '\'' then "&apos;"
  else if c = '"' then "&quot;"
  else String.mk [c]

def escapeXml (s : String) : String :=
  s.data.foldr (fun c acc => escapeXmlChar c ++ acc) ""

def renderAttrs (attrs : List (String × String)) : String :=
  attrs.foldr (fun a acc => " " ++ a.1 ++ "=\"" ++ escapeXml a.2 ++ "\"" ++ acc) ""

mutual

def XNode.render : XNode → String
  | XNode.elem n attrs cs =>
    "<" ++ n ++ renderAttrs attrs ++ ">" ++ renderChildren cs ++ "</" ++ n ++ ">"
  | XNode.text s => escapeXml s

def renderChildren : List XNode → String
  | [] => ""
  | c :: cs => c.render ++ renderChildren cs

end

def escapeJsonChar (c : Char) : String :=
  if c = '"' then "\\\""
  else if c = '\\' then "\\\\"
  else String.mk [c]

def escapeJson (s : String) : String :=
  s.data.foldr (fun c acc => escapeJsonChar c ++ acc) ""

mutual

def Json.render : Json → String
  | Json.null => "null"
  | Json.bool b => boolToStr b
  | Json.num i => intToStr i
  | Json.str s => "\"" ++ escapeJson s ++ "\""
  | Json.arr elems => "[" ++ renderJsonList elems ++ "]"
  | Json.obj fields => "\x7b" ++ renderJsonFields fields ++ "\x7d"

def renderJsonList : List Json → String
  | [] => ""
  | [j] => j.render
  | j :: rest => j.render ++ "," ++ renderJsonList rest

def renderJsonFields : List (String × Json) → String
  | [] => ""
  | [f] => "\"" ++ escapeJson f.1 ++ "\":" ++ f.2.render
  | f :: rest => "\"" ++ escapeJson f.1 ++ "\":" ++ f.2.render ++ "," ++ renderJsonFields rest

end

/-! ## JSON encoding of the model (Go `json.Marshal` on the tagged structs)

One key per struct field in field order, named by the `json` tag; pointer
fields tagged `omitempty` are dropped when nil (and only then — a non-nil
pointer to an empty struct is still emitted). -/

def jsonValue (v : Value) : Json := Json.obj [("value", Json.str v.value)]

def jsonName (n : Name) : Json :=
  Json.obj
    [ ("given-names", jsonValue n.givenNames)
    , ("family-name", jsonValue n.familyName)
    , ("credit-name", jsonValue n.creditName) ]

def jsonBiography (b : Biography) : Json := Json.obj [("content", Json.str b.content)]

def jsonEmail (e : Email) : Json :=
  Json.obj
    [ ("email", Json.str e.email)
    , ("verified", Json.bool e.verified)
    , ("primary", Json.bool e.primary)
    , ("visibility", Json.str e.visibility) ]

def jsonEmails (es : Emails) : Json :=
  Json.obj [("email", Json.arr (es.email.map jsonEmail))]

def jsonResearcherUrl (r : ResearcherUrl) : Json :=
  Json.obj [("url-name", Json.str r.urlName), ("url", jsonValue r.url)]

def jsonResearcherUrls (rs : ResearcherUrls) : Json :=
  Json.obj [("researcher-url", Json.arr (rs.researcherUrl.map jsonResearcherUrl))]

/-- Children contributed by an optional pointer field with `omitempty`. -/
def optJsonField (key : String) (enc : α → Json) : Option α → List (String × Json)
  | none => []
  | some a => [(key, enc a)]

/-- The object fields of the JSON encoding of a `Person`. -/
def personJsonFields (p : Person) : List (String × Json) :=
  ("name", jsonName p.name) ::
    (optJsonField "biography" jsonBiography p.biography ++
     optJsonField "emails" jsonEmails p.emails ++
     optJsonField "researcher-urls" jsonResearcherUrls p.researcherUrls)

def jsonPerson (p : Person) : Json := Json.obj (personJsonFields p)

def jsonOrcidIdentifier (o : OrcidIdentifier) : Json :=
  Json.obj
    [ ("uri", Json.str o.uri)
    , ("path", Json.str o.path)
    , ("host", Json.str o.host) ]

def jsonLastModified (lm : LastModified) : Json :=
  Json.obj [("value", Json.num lm.value)]

def jsonTitle (t : Title) : Json := Json.obj [("title", jsonValue t.title)]

def jsonWorkSummary (w : WorkSummary) : Json :=
  Json.obj
    [ ("put-code", Json.num w.putCode)
    , ("title", jsonTitle w.title)
    , ("type", Json.str w.workType)
    , ("last-modified-date", jsonLastModified w.lastModified) ]

def jsonWorkGroup (g : WorkGroup) : Json :=
  Json.obj [("work-summary", Json.arr (g.workSummary.map jsonWorkSummary))]

def jsonWorkSummaryGroup (g : WorkSummaryGroup) : Json :=
  Json.obj [("group", Json.arr (g.group.map jsonWorkGroup))]

def jsonOrg (o : Org) : Json := Json.obj [("name", Json.str o.name)]

def jsonEmploymentSummary (e : EmploymentSummary) : Json :=
  Json.obj
    [ ("put-code", Json.num e.putCode)
    , ("department-name", Json.str e.departmentName)
    , ("role-title", Json.str e.roleTitle)
    , ("organization", jsonOrg e.organization) ]

def jsonAffiliationGroup (g : AffiliationGroup) : Json :=
  Json.obj [("employment-summary", Json.arr (g.summaries.map jsonEmploymentSummary))]

def jsonEmploymentSummaryGroup (g : EmploymentSummaryGroup) : Json :=
  Json.obj [("affiliation-group", Json.arr (g.affiliationGroup.map jsonAffiliationGroup))]

def jsonActivities (a : Activities) : Json :=
  Json.obj
    [ ("works", jsonWorkSummaryGroup a.works)
    , ("employments", jsonEmploymentSummaryGroup a.employment) ]

def jsonOrcidRecord (r : OrcidRecord) : Json :=
  Json.obj
    [ ("orcid-identifier", jsonOrcidIdentifier r.orcidIdentifier)
    , ("person", jsonPerson r.person)
    , ("activities-summary", jsonActivities r.activities) ]

def jsonSearchResult (s : SearchResult) : Json :=
  Json.obj [("orcid-identifier", jsonOrcidIdentifier s.orcidIdentifier)]

def jsonSearchResponse (s : SearchResponse) : Json :=
  Json.obj
    [ ("result", Json.arr (s.result.map jsonSearchResult))
    , ("num-found", Json.num s.numFound) ]

/-! ## HTTP responses and the Content Negotiator (`writeResponse`) -/

/-- The parts of an HTTP response the handlers produce: status code,
`Content-Type` header, optional `Location` header, body bytes. -/
structure HttpResponse where
  status : Nat
  contentType : String
  location : Option String
  body : String
deriving Repr, DecidableEq

/-- The standard XML prolog. -/
def xmlProlog : String := "<?xml version=\"1.0\" encoding=\"UTF-8\"?>"

/-- Go's `xml.Header` constant: the prolog followed by a newline. -/
def xmlHeader : String := xmlProlog ++ "\n"

/-- The format decision of `writeResponse`: `true` means XML.  Mirrors the
source: `isV3 := strings.HasPrefix(r.URL.Path, "/v3.0/")`; on a v3 path,
JSON iff the Accept header contains "application/json", else XML; on any
other path, always JSON. -/
def chooseUseXML (path accept : String) : Bool :=
  let isV3 := goHasPrefix path "/v3.0/"
  if isV3 then
    if goContains accept "application/json" then false else true
  else false

/-- The negotiator `writeResponse`: pick the codec per `chooseUseXML`, set the
content-type header accordingly, and write the body (the XML branch first
writes `xml.Header`; Go's `json.Encoder.Encode` appends a newline).
Returns (content-type, body). -/
def writeResponse (path accept : String) (jsonDoc : Json) (xmlDoc : XNode) :
    String × String :=
  if chooseUseXML path accept then
    ("application/xml; charset=utf-8", xmlHeader ++ xmlDoc.render)
  else
    ("application/json; charset=utf-8", jsonDoc.render ++ "\n")

/-- A 200 response around a negotiated (content-type, body) pair. -/
def okResponse (ctBody : String × String) : HttpResponse :=
  { status := 200, contentType := ctBody.1, location := none, body := ctBody.2 }

/-- Go `http.Error`: plain-text content type, message plus newline. -/
def httpError (code : Nat) (msg : String) : HttpResponse :=
  { status := code
  , contentType := "text/plain; charset=utf-8"
  , location := none
  , body := msg ++ "\n" }

/-! ## The seeded store (`init` + `createMockRecord`) -/

/-- Association-list lookup modelling a Go map read (the seeded keys are
pairwise distinct). -/
def alookup (k : String) : List (String × α) → Option α
  | [] => none
  | (k', v) :: rest => if k' = k then some v else alookup k rest

/-- Go `createMockRecord` from the source; `now` is `time.Now().UnixMilli()`. -/
def createMockRecord (now : Int) (orcid givenName familyName bio : String) :
    OrcidRecord :=
  { orcidIdentifier := ⟨"https://orcid.org/" ++ orcid, orcid, "orcid.org"⟩
  , person :=
    { name :=
        ⟨⟨givenName⟩, ⟨familyName⟩, ⟨firstByteStr givenName ++ ". " ++ familyName⟩⟩
    , biography := some ⟨bio⟩
    , emails := some ⟨[⟨goToLower givenName ++ "." ++ goToLower familyName ++
        "@mock.edu", true, true, "PUBLIC"⟩]⟩
    , researcherUrls := some ⟨[⟨"Personal Website", ⟨"https://" ++
        goToLower givenName ++ "." ++ goToLower familyName ++ ".mock"⟩⟩]⟩ }
  , activities :=
    { works :=
        ⟨[⟨[⟨123456, ⟨⟨"Mock Paper Title"⟩⟩, "journal-article", ⟨now⟩⟩]⟩]⟩
    , employment :=
        ⟨[⟨[⟨789012, "Mock Department", "Mock Researcher", ⟨"Mock University"⟩⟩]⟩]⟩ } }

/-- The demo population seeded by `init`. -/
def seedPeople : List (String × String × String × String) :=
  [ ("0000-0001-2345-6789", "Sofia", "Garcia",
      "Sofia Garcia is a researcher in the field of Computer Science.")
  , ("0000-0002-1001-2002", "John", "Smith", "John Smith studies Physics.")
  , ("0000-0003-3003-4004", "Wei", "Chen", "Wei Chen is a Biologist.")
  , ("0000-0004-5005-6006", "Priya", "Patel", "Priya Patel works in Chemistry.")
  , ("0000-0005-7007-8008", "Ahmed", "Al-Fayed", "Ahmed Al-Fayed is a Mathematician.")
  , ("0000-0006-9009-0000", "Elena", "Popov", "Elena Popov researches History.") ]

/-- The `personStore` built by `init`: one `createMockRecord` per seeded
person, keyed by ORCID id. -/
def seedStore (now : Int) : List (String × OrcidRecord) :=
  seedPeople.map (fun p => (p.1, createMockRecord now p.1 p.2.1 p.2.2.1 p.2.2.2))

/-! ## Handlers (`main.go`, "Endpoint Implementations") -/

/-- Go `TokenResponse`. -/
structure TokenResponse where
  accessToken : String
  tokenType : String
  refreshToken : String
  expiresIn : Int
  scope : String
  name : String
  orcid : String
deriving Repr, DecidableEq

/-- The fixed token issued by `handleToken`. -/
def mockTokenResponse : TokenResponse :=
  ⟨"mock-access-token-12345", "bearer", "mock-refresh-token-67890", 631138518,
    "/read-limited /activities/update", "Sofia Garcia", "0000-0001-2345-6789"⟩

def jsonTokenResponse (t : TokenResponse) : Json :=
  Json.obj
    [ ("access_token", Json.str t.accessToken)
    , ("token_type", Json.str t.tokenType)
    , ("refresh_token", Json.str t.refreshToken)
    , ("expires_in", Json.num t.expiresIn)
    , ("scope", Json.str t.scope)
    , ("name", Json.str t.name)
    , ("orcid", Json.str t.orcid) ]

/-- Handler `handleToken` (the `parseOk` flag abstracts `r.ParseForm()` succeeding;
the token endpoint always answers in JSON). -/
def handleToken (parseOk : Bool) : HttpResponse :=
  if parseOk then
    { status := 200
    , contentType := "application/json; charset=utf-8"
    , location := none
    , body := (jsonTokenResponse mockTokenResponse).render ++ "\n" }
  else httpError 400 "Invalid request"

/-- Handler `handleAuthorize` (the HTML body Go's `http.Redirect` writes on a 302
is elided as empty). -/
def handleAuthorize (redirectURI state : String) : HttpResponse :=
  if redirectURI = "" then httpError 400 "Missing redirect_uri"
  else
    let target := redirectURI ++ "?code=" ++ "mock-auth-code-12345"
    let target := if state = "" then target else target ++ "&state=" ++ state
    { status := 302, contentType := "", location := some target, body := "" }

/-- Go `xml.Marshal` of a bare `Person` (no `XMLName` field: Go uses the
struct type's name as the element name). -/
def xmlEncodePerson (p : Person) : XNode := XNode.elem "Person" [] (encPerson p)

/-- Handler `handleGetRecord`. -/
def handleGetRecord (store : List (String × OrcidRecord))
    (path accept orcid : String) : HttpResponse :=
  match alookup orcid store with
  | none => httpError 404 "Record not found"
  | some record =>
    okResponse (writeResponse path accept (jsonOrcidRecord record) (xmlEncodeRecord record))

/-- Handler `handleGetPerson`. -/
def handleGetPerson (store : List (String × OrcidRecord))
    (path accept orcid : String) : HttpResponse :=
  match alookup orcid store with
  | none => httpError 404 "Person not found"
  | some record =>
    okResponse (writeResponse path accept (jsonPerson record.person)
      (xmlEncodePerson record.person))

/-- Go `DateYear`. -/
structure DateYear where
  year : Value
deriving Repr, DecidableEq

/-- Go `GenericWorkResponse`. -/
structure GenericWorkResponse where
  workType : String
  putCode : Int
  title : Title
  publicationDate : DateYear
deriving Repr, DecidableEq

def encDateYear (d : DateYear) : List XNode := [subElem "year" (encValue d.year)]

def jsonDateYear (d : DateYear) : Json := Json.obj [("year", jsonValue d.year)]

def xmlEncodeGenericWork (g : GenericWorkResponse) : XNode :=
  XNode.elem "work:work" []
    [ strElem "type" g.workType
    , intElem "put-code" g.putCode
    , subElem "title" (encTitle g.title)
    , subElem "publication-date" (encDateYear g.publicationDate) ]

def jsonGenericWork (g : GenericWorkResponse) : Json :=
  Json.obj
    [ ("type", Json.str g.workType)
    , ("put-code", Json.num g.putCode)
    , ("title", jsonTitle g.title)
    , ("publication-date", jsonDateYear g.publicationDate) ]

/-- Handler `handleGetWork`: `putCode, _ := strconv.Atoi(...)` — a parse error is
discarded and leaves the zero value 0. -/
def handleGetWork (path accept putCodeSeg : String) : HttpResponse :=
  let putCode := (parseInt? putCodeSeg).getD 0
  let response : GenericWorkResponse :=
    ⟨"work", putCode, ⟨⟨"Retrieved Mock Work"⟩⟩, ⟨⟨"2023"⟩⟩⟩
  okResponse (writeResponse path accept (jsonGenericWork response)
    (xmlEncodeGenericWork response))

/-- The put-code minted by the POST handlers: `rand.Intn(999999) + 100000`,
where `randDraw` stands for the `rand.Intn(999999)` result (which lies in
`[0, 999998]`). -/
def newPutCode (randDraw : Nat) : Int := (randDraw : Int) + 100000

/-- The local `PutCodeResponse` body of the POST handlers (JSON form). -/
def jsonPutCodeResponse (pc : Int) : Json := Json.obj [("put-code", Json.num pc)]

/-- The local `PutCodeResponse` body of the POST handlers (XML form,
root `response`). -/
def xmlPutCodeResponse (pc : Int) : XNode :=
  XNode.elem "response" [] [intElem "put-code" pc]

/-- Handler `handlePostWork`. -/
def handlePostWork (path accept orcid : String) (randDraw : Nat) : HttpResponse :=
  let pc := newPutCode randDraw
  let wr := writeResponse path accept (jsonPutCodeResponse pc) (xmlPutCodeResponse pc)
  { status := 201
  , contentType := wr.1
  , location := some ("https://api.orcid.org/v3.0/" ++ orcid ++ "/work/" ++ intToStr pc)
  , body := wr.2 }

/-- The local `UpdateResponse` body of the PUT handlers (the put-code is
echoed back as the raw path segment string). -/
def jsonUpdateResponse (pc : String) : Json :=
  Json.obj [("put-code", Json.str pc), ("status", Json.str "updated")]

def xmlUpdateResponse (pc : String) : XNode :=
  XNode.elem "response" [] [strElem "put-code" pc, strElem "status" "updated"]

/-- Handler `handlePutWork`. -/
def handlePutWork (path accept orcid putCodeSeg : String) : HttpResponse :=
  let wr := writeResponse path accept (jsonUpdateResponse putCodeSeg)
    (xmlUpdateResponse putCodeSeg)
  { status := 200
  , contentType := wr.1
  , location := some ("https://api.orcid.org/v3.0/" ++ orcid ++ "/work/" ++ putCodeSeg)
  , body := wr.2 }

/-- Go `GenericEmploymentResponse`. -/
structure GenericEmploymentResponse where
  putCode : Int
  departmentName : String
  roleTitle : String
  organization : Org
  startDate : DateYear
deriving Repr, DecidableEq

def xmlEncodeGenericEmployment (g : GenericEmploymentResponse) : XNode :=
  XNode.elem "employment:employment" []
    [ intElem "put-code" g.putCode
    , strElem "department-name" g.departmentName
    , strElem "role-title" g.roleTitle
    , subElem "organization" (encOrg g.organization)
    , subElem "start-date" (encDateYear g.startDate) ]

def jsonGenericEmployment (g : GenericEmploymentResponse) : Json :=
  Json.obj
    [ ("put-code", Json.num g.putCode)
    , ("department-name", Json.str g.departmentName)
    , ("role-title", Json.str g.roleTitle)
    , ("organization", jsonOrg g.organization)
    , ("start-date", jsonDateYear g.startDate) ]

/-- Handler `handleGetEmployment`: same discarded-`Atoi`-error pattern as
`handleGetWork`. -/
def handleGetEmployment (path accept putCodeSeg : String) : HttpResponse :=
  let putCode := (parseInt? putCodeSeg).getD 0
  let response : GenericEmploymentResponse :=
    ⟨putCode, "Mock Department", "Mock Researcher", ⟨"Mock Org"⟩, ⟨⟨"2020"⟩⟩⟩
  okResponse (writeResponse path accept (jsonGenericEmployment response)
    (xmlEncodeGenericEmployment response))

/-- Handler `handlePostEmployment`. -/
def handlePostEmployment (path accept orcid : String) (randDraw : Nat) : HttpResponse :=
  let pc := newPutCode randDraw
  let wr := writeResponse path accept (jsonPutCodeResponse pc) (xmlPutCodeResponse pc)
  { status := 201
  , contentType := wr.1
  , location := some ("https://api.orcid.org/v3.0/" ++ orcid ++ "/employment/" ++ intToStr pc)
  , body := wr.2 }

/-- Handler `handlePutEmployment`. -/
def handlePutEmployment (path accept orcid putCodeSeg : String) : HttpResponse :=
  let wr := writeResponse path accept (jsonUpdateResponse putCodeSeg)
    (xmlUpdateResponse putCodeSeg)
  { status := 200
  , contentType := wr.1
  , location := some ("https://api.orcid.org/v3.0/" ++ orcid ++ "/employment/" ++ putCodeSeg)
  , body := wr.2 }

/-- The fixed single-hit result returned by `handleSearch`. -/
def mockSearchResponse : SearchResponse :=
  ⟨[⟨⟨"https://orcid.org/0000-0001-2345-6789", "0000-0001-2345-6789", "orcid.org"⟩⟩], 1⟩

/-- Handler `handleSearch`. -/
def handleSearch (path accept q : String) : HttpResponse :=
  if goContains q "error" then httpError 500 "Search failed"
  else
    okResponse (writeResponse path accept (jsonSearchResponse mockSearchResponse)
      (xmlEncodeSearch mockSearchResponse))

/-! ## One routed request and the request loop

`serve` dispatches a routed request to its handler, threading the
`personStore` through explicitly.  No handler assigns to `personStore` or
`dataStore` (the save in `handlePostWork` is commented out in the source;
reads take `storeMutex.RLock` only), so every branch returns the store it
was given. -/

/-- A routed request together with everything its handler reads from it
(path-parameter values, `Accept` header, query values, and — for the POST
handlers — the `rand.Intn(999999)` draw). -/
inductive ApiRequest where
  | token (parseOk : Bool)
  | authorize (redirectURI state : String)
  | getRecord (path accept orcid : String)
  | getPerson (path accept orcid : String)
  | getWork (path accept putCodeSeg : String)
  | postWork (path accept orcid : String) (randDraw : Nat)
  | putWork (path accept orcid putCodeSeg : String)
  | getEmployment (path accept putCodeSeg : String)
  | postEmployment (path accept orcid : String) (randDraw : Nat)
  | putEmployment (path accept orcid putCodeSeg : String)
  | search (path accept q : String)

/-- Dispatch one request; returns the store afterwards and the response. -/
def serve (store : List (String × OrcidRecord)) :
    ApiRequest → List (String × OrcidRecord) × HttpResponse
  | ApiRequest.token ok => (store, handleToken ok)
  | ApiRequest.authorize r s => (store, handleAuthorize r s)
  | ApiRequest.getRecord p a o => (store, handleGetRecord store p a o)
  | ApiRequest.getPerson p a o => (store, handleGetPerson store p a o)
  | ApiRequest.getWork p a pc => (store, handleGetWork p a pc)
  | ApiRequest.postWork p a o r => (store, handlePostWork p a o r)
  | ApiRequest.putWork p a o pc => (store, handlePutWork p a o pc)
  | ApiRequest.getEmployment p a pc => (store, handleGetEmployment p a pc)
  | ApiRequest.postEmployment p a o r => (store, handlePostEmployment p a o r)
  | ApiRequest.putEmployment p a o pc => (store, handlePutEmployment p a o pc)
  | ApiRequest.search p a q => (store, handleSearch p a q)

/-- The store after a sequence of requests has been served. -/
def runRequests (store : List (String × OrcidRecord)) :
    List ApiRequest → List (String × OrcidRecord)
  | [] => store
  | r :: rest => runRequests (serve store r).1 rest

/-! ## Accessors used to state the claims -/

/-- The attribute list of a node (empty for text). -/
def XNode.attrsOf : XNode → List (String × String)
  | XNode.elem _ attrs _ => attrs
  | XNode.text _ => []

/-- The children of a node (empty for text). -/
def XNode.childrenOf : XNode → List XNode
  | XNode.elem _ _ cs => cs
  | XNode.text _ => []

/-- Does the element carry an attribute named `k`? -/
def hasAttr (k : String) (x : XNode) : Bool :=
  x.attrsOf.any (fun a => a.1 == k)

/-- The value of the attribute named `k`, if present. -/
def getAttr? (k : String) (x : XNode) : Option String := alookup k x.attrsOf

/-- Does the element have a child element named `n`? -/
def hasChildElem (n : String) (x : XNode) : Bool :=
  !(elemsNamed n x.childrenOf).isEmpty

/-- The value under key `k` of a JSON object. -/
def Json.lookupKey (k : String) : Json → Option Json
  | Json.obj fields => alookup k fields
  | _ => none

/-! ## The `models` package (`models/person.go`)

The namespaced structs whose XML tags render `visibility` and `put-code`
as *attributes* of the owning element.  Only the structs the claims need
are embedded (`Email`, `ResearcherUrl` and their `Source` chain); element
names are the full Go tags, attribute names are unqualified, `attr` fields
tagged `omitempty` are dropped when empty, pointer fields are dropped when
nil.  The `xmlns:*` declaration fields of `models.Person` are namespace
declarations, which the semantic equality of the test ignores, and play no
part in these claims. -/

namespace Models

/-- Go `models.SourceOrcid` (all element fields `omitempty`). -/
structure SourceOrcid where
  uri : String
  path : String
  host : String
deriving Repr, DecidableEq

/-- Go `models.SourceName` (character data). -/
structure SourceName where
  value : String
deriving Repr, DecidableEq

/-- Go `models.Source`. -/
structure Source where
  sourceOrcid : Option SourceOrcid
  sourceName : Option SourceName
deriving Repr, DecidableEq

/-- Go `models.Email`: `Visibility` is tagged `visibility,attr,omitempty`. -/
structure Email where
  visibility : String
  createdDate : Option String
  lastModifiedDate : Option String
  source : Option Source
  email : String
deriving Repr, DecidableEq

/-- Go `models.ResearcherUrl`: `Visibility` and `PutCode` are tagged
`visibility,attr,omitempty` / `put-code,attr,omitempty`. -/
structure ResearcherUrl where
  visibility : String
  putCode : String
  createdDate : Option String
  lastModifiedDate : Option String
  source : Option Source
  urlName : String
  url : String
deriving Repr, DecidableEq

/-- An attribute with `omitempty`: dropped when the value is empty. -/
def optAttr (k v : String) : List (String × String) :=
  if v = "" then [] else [(k, v)]

/-- An optional (`*string`) element field: dropped when nil. -/
def optPtrStrElem (n : String) : Option String → List XNode
  | none => []
  | some s => [strElem n s]

/-- A string element field with `omitempty`: dropped when empty. -/
def omitStrElem (n s : String) : List XNode :=
  if s = "" then [] else [strElem n s]

def encSourceOrcid (s : SourceOrcid) : List XNode :=
  omitStrElem "http://www.orcid.org/ns/common uri" s.uri ++
  omitStrElem "http://www.orcid.org/ns/common path" s.path ++
  omitStrElem "http://www.orcid.org/ns/common host" s.host

def encSourceName (s : SourceName) : List XNode := strChildren s.value

def encSource (s : Source) : List XNode :=
  optChildren "http://www.orcid.org/ns/common source-orcid" encSourceOrcid s.sourceOrcid ++
  optChildren "http://www.orcid.org/ns/common source-name" encSourceName s.sourceName

/-- Go `xml.Marshal` of a `models.Email` (element name from the `Emails`
field tag). -/
def emailToXml (e : Email) : XNode :=
  XNode.elem "http://www.orcid.org/ns/email email"
    (optAttr "visibility" e.visibility)
    (optPtrStrElem "http://www.orcid.org/ns/common created-date" e.createdDate ++
     optPtrStrElem "http://www.orcid.org/ns/common last-modified-date" e.lastModifiedDate ++
     optChildren "http://www.orcid.org/ns/common source" encSource e.source ++
     [strElem "http://www.orcid.org/ns/email email" e.email])

/-- Go `xml.Marshal` of a `models.ResearcherUrl` (element name from the
`ResearcherUrls` field tag). -/
def researcherUrlToXml (r : ResearcherUrl) : XNode :=
  XNode.elem "http://www.orcid.org/ns/researcher-url researcher-url"
    (optAttr "visibility" r.visibility ++ optAttr "put-code" r.putCode)
    (optPtrStrElem "http://www.orcid.org/ns/common created-date" r.createdDate ++
     optPtrStrElem "http://www.orcid.org/ns/common last-modified-date" r.lastModifiedDate ++
     optChildren "http://www.orcid.org/ns/common source" encSource r.source ++
     [ strElem "http://www.orcid.org/ns/researcher-url url-name" r.urlName
     , strElem "http://www.orcid.org/ns/researcher-url url" r.url ])

end Models

/-! ## Supporting lemmas -/

/-! ### Round-trip lemmas for the scalar codecs. -/

theorem natDigitsAux_acc (fuel : Nat) :
    ∀ n acc, natDigitsAux fuel n acc = natDigitsAux fuel n [] ++ acc := by
  induction fuel with
  | zero => intro n acc; simp [natDigitsAux]
  | succ f ih =>
    intro n acc
    by_cases h : n < 10
    · simp [natDigitsAux, h]
    · simp only [natDigitsAux, if_neg h]
      rw [ih (n / 10) (Nat.digitChar (n % 10) :: acc),
        ih (n / 10) [Nat.digitChar (n % 10)]]
      simp

theorem natDigitsAux_fuel (fuel₁ : Nat) :
    ∀ fuel₂ n acc, n < fuel₁ → n < fuel₂ →
      natDigitsAux fuel₁ n acc = natDigitsAux fuel₂ n acc := by
  induction fuel₁ with
  | zero => intro _ n _ h; omega
  | succ f₁ ih =>
    intro fuel₂ n acc h₁ h₂
    match fuel₂, h₂ with
    | f₂ + 1, h₂ =>
      by_cases h : n < 10
      · simp [natDigitsAux, h]
      · simp only [natDigitsAux, if_neg h]
        have hn : 0 < n := by omega
        have hd : n / 10 < n := Nat.div_lt_self hn (by omega)
        exact ih f₂ (n / 10) _ (by omega) (by omega)

/-- Structural unfolding of `natToChars`. -/
theorem natToChars_eq (n : Nat) :
    natToChars n =
      if n < 10 then [Nat.digitChar n]
      else natToChars (n / 10) ++ [Nat.digitChar (n % 10)] := by
  by_cases h : n < 10
  · simp [natToChars, natDigitsAux, h]
  · have hn : 0 < n := by omega
    have hd : n / 10 < n := Nat.div_lt_self hn (by omega)
    have h1 : natToChars n = natDigitsAux n (n / 10) [Nat.digitChar (n % 10)] := by
      simp [natToChars, natDigitsAux, h]
    rw [h1, natDigitsAux_acc,
      natDigitsAux_fuel n (n / 10 + 1) (n / 10) [] (by omega) (by omega), if_neg h]
    rfl

theorem natToChars_ne_nil (n : Nat) : natToChars n ≠ [] := by
  rw [natToChars_eq]
  by_cases h : n < 10 <;> simp [h]

theorem charDigit?_digitChar (d : Nat) (h : d < 10) :
    charDigit? (Nat.digitChar d) = some d := by
  interval_cases d <;> decide

theorem digitChar_ne_dash (d : Nat) (h : d < 10) : Nat.digitChar d ≠ '-' := by
  interval_cases d <;> decide

theorem digitChar_ne_plus (d : Nat) (h : d < 10) : Nat.digitChar d ≠ '+' := by
  interval_cases d <;> decide

theorem parseRun_append (l₁ : List Char) :
    ∀ v l₂, parseRun v (l₁ ++ l₂) = (parseRun v l₁).bind (fun v' => parseRun v' l₂) := by
  induction l₁ with
  | nil => intro v l₂; simp [parseRun]
  | cons c cs ih =>
    intro v l₂
    simp only [List.cons_append, parseRun]
    match charDigit? c with
    | some d => simp [ih]
    | none => simp

theorem parseRun_natToChars (n : Nat) :
    ∀ v, parseRun v (natToChars n) = some (v * 10 ^ (natToChars n).length + n) := by
  induction n using Nat.strong_induction_on with
  | _ n ih =>
    intro v
    rw [natToChars_eq]
    by_cases h : n < 10
    · simp only [if_pos h, parseRun, charDigit?_digitChar n h, List.length_singleton]
      simp
    · have hn : 0 < n := by omega
      have hd : n / 10 < n := Nat.div_lt_self hn (by omega)
      have hr : n % 10 < 10 := Nat.mod_lt _ (by omega)
      have hmod : (v * 10 ^ (natToChars (n / 10)).length + n / 10) * 10 + n % 10
          = v * 10 ^ ((natToChars (n / 10)).length + 1) + n := by
        rw [pow_succ]
        have := Nat.div_add_mod n 10
        ring_nf
        omega
      simp only [if_neg h, parseRun_append, ih (n / 10) hd v, Option.some_bind,
        parseRun, charDigit?_digitChar _ hr, List.length_append,
        List.length_singleton]
      exact congrArg some hmod

theorem parseDigits?_natToChars (n : Nat) : parseDigits? (natToChars n) = some n := by
  have hne := natToChars_ne_nil n
  match hl : natToChars n with
  | [] => exact absurd hl hne
  | c :: cs =>
    have := parseRun_natToChars n 0
    rw [hl] at this
    simpa [parseDigits?] using this

theorem natToChars_head_digit (n : Nat) :
    ∃ d, d < 10 ∧ ∃ rest, natToChars n = Nat.digitChar d :: rest := by
  rw [natToChars_eq]
  by_cases h : n < 10
  · exact ⟨n, h, [], by simp [h]⟩
  · have hd : n / 10 < n := Nat.div_lt_self (by omega) (by omega)
    obtain ⟨d, hd10, rest, hrest⟩ := natToChars_head_digit (n / 10)
    exact ⟨d, hd10, rest ++ [Nat.digitChar (n % 10)], by simp [h, hrest]⟩

/-- The decimal codec round-trips: parsing the formatted integer recovers it. -/
theorem parseInt?_intToStr (i : Int) : parseInt? (intToStr i) = some i := by
  by_cases h : i < 0
  · have hdata : (intToStr i).data = '-' :: natToChars i.natAbs := by
      simp only [intToStr, if_pos h]
      rw [String.data_append]
      rfl
    rw [parseInt?, hdata]
    simp only [parseIntChars?, reduceIte, parseDigits?_natToChars, Option.map_some']
    congr 1
    rw [Int.natCast_natAbs, abs_of_neg h, neg_neg]
  · obtain ⟨d, hd10, rest, hrest⟩ := natToChars_head_digit i.natAbs
    have hdata : (intToStr i).data = Nat.digitChar d :: rest := by
      simp only [intToStr, if_neg h]
      simpa [natToStr] using hrest
    rw [parseInt?, hdata]
    simp only [parseIntChars?, if_neg (digitChar_ne_dash d hd10),
      if_neg (digitChar_ne_plus d hd10), ← hrest, parseDigits?_natToChars,
      Option.map_some']
    congr 1
    rw [Int.natCast_natAbs, abs_of_nonneg (by omega)]

theorem parseBool?_boolToStr (b : Bool) : parseBool? (boolToStr b) = some b := by
  cases b <;> decide


/-! ## The XML round-trip, struct by struct -/

theorem textContent_strChildren (s : String) : textContent (strChildren s) = s := by
  by_cases h : s = "" <;> simp [strChildren, textContent, h]

theorem decValue_enc (v : Value) : decValue (encValue v) = some v := by
  simp [decValue, encValue, strField, lastMatch, XNode.isNamed, strElem,
    textContent_strChildren]

theorem decName_enc (n : Name) : decName (encName n) = some n := by
  simp [decName, encName, subField, lastMatch, XNode.isNamed, subElem, strElem,
    decValue_enc]

theorem decBiography_enc (b : Biography) : decBiography (encBiography b) = some b := by
  simp [decBiography, encBiography, strField, lastMatch, XNode.isNamed, strElem,
    textContent_strChildren]

theorem decEmail_enc (e : Email) : decEmail (encEmail e) = some e := by
  simp [decEmail, encEmail, strField, boolField, lastMatch, XNode.isNamed,
    strElem, boolElem, textContent, textContent_strChildren, parseBool?_boolToStr]

theorem listField_map (n : String) (enc : α → List XNode)
    (dec : List XNode → Option α) (l : List α)
    (h : ∀ a ∈ l, dec (enc a) = some a) :
    listField n dec (l.map (fun a => subElem n (enc a))) = some l := by
  induction l with
  | nil => simp [listField, elemsNamed, decodeItems]
  | cons a rest ih =>
    have ha := h a (by simp)
    have hrest := ih (fun b hb => h b (by simp [hb]))
    simp only [listField, elemsNamed, List.map_cons, XNode.isNamed, subElem,
      beq_self_eq_true, if_pos, decodeItems, ha, Option.some_bind] at hrest ⊢
    simp [hrest]

theorem decEmails_enc (es : Emails) : decEmails (encEmails es) = some es := by
  simp [decEmails, encEmails,
    listField_map "email" encEmail decEmail es.email (fun e _ => decEmail_enc e)]

theorem decResearcherUrl_enc (r : ResearcherUrl) :
    decResearcherUrl (encResearcherUrl r) = some r := by
  simp [decResearcherUrl, encResearcherUrl, subField, strField, lastMatch,
    XNode.isNamed, subElem, strElem, decValue_enc, textContent_strChildren]

theorem decResearcherUrls_enc (rs : ResearcherUrls) :
    decResearcherUrls (encResearcherUrls rs) = some rs := by
  simp [decResearcherUrls, encResearcherUrls,
    listField_map "researcher-url" encResearcherUrl decResearcherUrl
      rs.researcherUrl (fun r _ => decResearcherUrl_enc r)]

theorem decPerson_enc (p : Person) : decPerson (encPerson p) = some p := by
  rcases p with ⟨nm, bio, em, ru⟩
  cases bio <;> cases em <;> cases ru <;>
    simp [decPerson, encPerson, subField, optSubField, optChildren, lastMatch,
      XNode.isNamed, subElem, decName_enc, decEmails_enc, decBiography_enc,
      decResearcherUrls_enc]

theorem decOrcidIdentifier_enc (o : OrcidIdentifier) :
    decOrcidIdentifier (encOrcidIdentifier o) = some o := by
  simp [decOrcidIdentifier, encOrcidIdentifier, strField, lastMatch,
    XNode.isNamed, strElem, textContent_strChildren]

theorem decLastModified_enc (lm : LastModified) :
    decLastModified (encLastModified lm) = some lm := by
  simp [decLastModified, encLastModified, intField, lastMatch, XNode.isNamed,
    intElem, textContent, parseInt?_intToStr]

theorem decTitle_enc (t : Title) : decTitle (encTitle t) = some t := by
  simp [decTitle, encTitle, subField, lastMatch, XNode.isNamed, subElem,
    decValue_enc]

theorem decWorkSummary_enc (w : WorkSummary) :
    decWorkSummary (encWorkSummary w) = some w := by
  simp [decWorkSummary, encWorkSummary, intField, subField, strField, lastMatch,
    XNode.isNamed, intElem, subElem, strElem, textContent, parseInt?_intToStr,
    decTitle_enc, decLastModified_enc, textContent_strChildren]

theorem decWorkGroup_enc (g : WorkGroup) : decWorkGroup (encWorkGroup g) = some g := by
  simp [decWorkGroup, encWorkGroup,
    listField_map "work-summary" encWorkSummary decWorkSummary g.workSummary
      (fun w _ => decWorkSummary_enc w)]

theorem decWorkSummaryGroup_enc (g : WorkSummaryGroup) :
    decWorkSummaryGroup (encWorkSummaryGroup g) = some g := by
  simp [decWorkSummaryGroup, encWorkSummaryGroup,
    listField_map "group" encWorkGroup decWorkGroup g.group
      (fun w _ => decWorkGroup_enc w)]

theorem decOrg_enc (o : Org) : decOrg (encOrg o) = some o := by
  simp [decOrg, encOrg, strField, lastMatch, XNode.isNamed, strElem,
    textContent_strChildren]

theorem decEmploymentSummary_enc (e : EmploymentSummary) :
    decEmploymentSummary (encEmploymentSummary e) = some e := by
  simp [decEmploymentSummary, encEmploymentSummary, intField, subField, strField,
    lastMatch, XNode.isNamed, intElem, subElem, strElem, textContent,
    parseInt?_intToStr, decOrg_enc, textContent_strChildren]

theorem decAffiliationGroup_enc (g : AffiliationGroup) :
    decAffiliationGroup (encAffiliationGroup g) = some g := by
  simp [decAffiliationGroup, encAffiliationGroup,
    listField_map "employment-summary" encEmploymentSummary decEmploymentSummary
      g.summaries (fun e _ => decEmploymentSummary_enc e)]

theorem decEmploymentSummaryGroup_enc (g : EmploymentSummaryGroup) :
    decEmploymentSummaryGroup (encEmploymentSummaryGroup g) = some g := by
  simp [decEmploymentSummaryGroup, encEmploymentSummaryGroup,
    listField_map "affiliation-group" encAffiliationGroup decAffiliationGroup
      g.affiliationGroup (fun a _ => decAffiliationGroup_enc a)]

theorem decActivities_enc (a : Activities) : decActivities (encActivities a) = some a := by
  simp [decActivities, encActivities, subField, lastMatch, XNode.isNamed, subElem,
    decWorkSummaryGroup_enc, decEmploymentSummaryGroup_enc]

theorem decOrcidRecordChildren_enc (r : OrcidRecord) :
    decOrcidRecordChildren (encOrcidRecordChildren r) = some r := by
  simp [decOrcidRecordChildren, encOrcidRecordChildren, subField, lastMatch,
    XNode.isNamed, subElem, decOrcidIdentifier_enc, decPerson_enc,
    decActivities_enc]


theorem elemsNamed_append (n : String) (xs ys : List XNode) :
    elemsNamed n (xs ++ ys) = elemsNamed n xs ++ elemsNamed n ys := by
  induction xs with
  | nil => simp [elemsNamed]
  | cons c cs ih => by_cases h : c.isNamed n = true <;> simp [elemsNamed, h, ih]


/-- C1: XML round-trip — for every value constructible from the record model
(hence in particular every FullRecord the seed data produces), decoding the
XML encoding of the value yields the original value back exactly; structural
equality of model values is stronger than the semantic XML equality the spec
allows (which ignores whitespace, attribute order, prefix spelling and
namespace declarations). -/
theorem c1_xml_roundtrip_record (r : OrcidRecord) :
    xmlDecodeRecord (xmlEncodeRecord r) = some r := by
  simp [xmlDecodeRecord, xmlEncodeRecord, decOrcidRecordChildren_enc]

/-- C2: content negotiation — on a path that does not begin with `/v3.0/` the
chosen format is always JSON; on a `/v3.0/` path the format is JSON iff the
Accept header contains `application/json` (absent and unrecognized headers
behave identically), and XML otherwise.  Determinism is immediate:
`chooseUseXML` is a pure function of the path and the Accept header. -/
theorem c2_content_negotiation (path accept : String) :
    (goHasPrefix path "/v3.0/" = false → chooseUseXML path accept = false) ∧
    (goHasPrefix path "/v3.0/" = true →
      (chooseUseXML path accept = false ↔
        goContains accept "application/json" = true)) := by
  constructor
  · intro h
    simp [chooseUseXML, h]
  · intro h
    cases hj : goContains accept "application/json" <;> simp [chooseUseXML, h, hj]

theorem c2_witness :
    chooseUseXML "/oauth/token" "application/json" = false ∧
    (chooseUseXML "/v3.0/0000-0001-2345-6789/record" "" = false ↔
      goContains "" "application/json" = true) :=
  ⟨(c2_content_negotiation "/oauth/token" "application/json").1 (by decide),
   (c2_content_negotiation "/v3.0/0000-0001-2345-6789/record" "").2 (by decide)⟩

/-- C5: search — `handleSearch` answers HTTP 500 with a plain-text body
exactly when the query `q` contains the substring "error"; otherwise it
answers 200 with the fixed single-hit `SearchResponse` (num-found 1, one
fixed identifier) in the negotiated format. -/
theorem c5_search (path accept q : String) :
    (goContains q "error" = true →
      handleSearch path accept q = httpError 500 "Search failed") ∧
    (goContains q "error" = false →
      (handleSearch path accept q).status = 200 ∧
      (handleSearch path accept q).body =
        (writeResponse path accept (jsonSearchResponse mockSearchResponse)
          (xmlEncodeSearch mockSearchResponse)).2 ∧
      mockSearchResponse.numFound = 1 ∧
      mockSearchResponse.result =
        [⟨⟨"https://orcid.org/0000-0001-2345-6789", "0000-0001-2345-6789",
          "orcid.org"⟩⟩]) := by
  constructor
  · intro h
    simp [handleSearch, h]
  · intro h
    refine ⟨?_, ?_, rfl, rfl⟩ <;> simp [handleSearch, h, okResponse]

theorem c5_witness :
    handleSearch "/v3.0/search" "" "error" = httpError 500 "Search failed" ∧
    (handleSearch "/v3.0/search" "" "test").status = 200 :=
  ⟨(c5_search "/v3.0/search" "" "error").1 (by decide),
   ((c5_search "/v3.0/search" "" "test").2 (by decide)).1⟩

/-- C7: media types — whenever the XML format is chosen, `writeResponse` sets
`Content-Type: application/xml; charset=utf-8` and the body is the standard
XML prolog followed (after the header's newline) by the encoded document;
whenever JSON is chosen it sets `Content-Type: application/json;
charset=utf-8`. -/
theorem c7_media_types (path accept : String) (j : Json) (x : XNode) :
    (chooseUseXML path accept = true →
      writeResponse path accept j x =
        ("application/xml; charset=utf-8", xmlProlog ++ "\n" ++ x.render)) ∧
    (chooseUseXML path accept = false →
      writeResponse path accept j x =
        ("application/json; charset=utf-8", j.render ++ "\n")) := by
  constructor <;> intro h <;> simp [writeResponse, h, xmlHeader, String.append_assoc]

theorem c7_witness :
    writeResponse "/v3.0/0000-0001-2345-6789/record" "" (Json.num 0)
        (XNode.text "t") =
      ("application/xml; charset=utf-8", xmlProlog ++ "\n" ++ (XNode.text "t").render) ∧
    writeResponse "/oauth/token" "" (Json.num 0) (XNode.text "t") =
      ("application/json; charset=utf-8", (Json.num 0).render ++ "\n") :=
  ⟨(c7_media_types "/v3.0/0000-0001-2345-6789/record" "" (Json.num 0)
      (XNode.text "t")).1 (by decide),
   (c7_media_types "/oauth/token" "" (Json.num 0) (XNode.text "t")).2 (by decide)⟩

/-- C8: store immutability — the store is never changed by serving any
sequence of requests, so any request (in particular any GET) observes the
same store, and hence the same response, after an arbitrary request history
as before it; meanwhile the POST and PUT work/employment handlers still
report success (201 / 200). -/
theorem c8_store_immutable (store : List (String × OrcidRecord))
    (reqs : List ApiRequest) (req : ApiRequest)
    (path accept orcid putCodeSeg : String) (randDraw : Nat) :
    runRequests store reqs = store ∧
    (serve (runRequests store reqs) req).2 = (serve store req).2 ∧
    (handlePostWork path accept orcid randDraw).status = 201 ∧
    (handlePutWork path accept orcid putCodeSeg).status = 200 ∧
    (handlePostEmployment path accept orcid randDraw).status = 201 ∧
    (handlePutEmployment path accept orcid putCodeSeg).status = 200 := by
  have h : ∀ rs s, runRequests s rs = s := by
    intro rs
    induction rs with
    | nil => intro s; rfl
    | cons r rest ih => intro s; cases r <;> simp [runRequests, serve, ih]
  exact ⟨h reqs store, by rw [h reqs store], rfl, rfl, rfl, rfl⟩

/-- C9: optional-field omission — a `Person` with an absent Biography has no
"biography" key in its JSON encoding and no `biography` element in its XML
encoding; a present Biography (even with empty content string) is emitted in
both encodings. -/
theorem c9_biography_omission (p : Person) :
    (Json.lookupKey "biography" (jsonPerson p) = none ↔ p.biography = none) ∧
    (elemsNamed "biography" (encPerson p) = [] ↔ p.biography = none) ∧
    (∀ b, p.biography = some b →
      Json.lookupKey "biography" (jsonPerson p) = some (jsonBiography b) ∧
      elemsNamed "biography" (encPerson p) = [subElem "biography" (encBiography b)]) := by
  rcases p with ⟨nm, bio, em, ru⟩
  cases bio <;> cases em <;> cases ru <;>
    simp [jsonPerson, personJsonFields, Json.lookupKey, alookup, optJsonField,
      encPerson, elemsNamed, optChildren, XNode.isNamed, subElem]

theorem c9_witness :
    (Json.lookupKey "biography"
        (jsonPerson ⟨⟨⟨"G"⟩, ⟨"F"⟩, ⟨"C"⟩⟩, some ⟨""⟩, none, none⟩) =
      some (jsonBiography ⟨""⟩)) ∧
    (elemsNamed "biography"
        (encPerson ⟨⟨⟨"G"⟩, ⟨"F"⟩, ⟨"C"⟩⟩, some ⟨""⟩, none, none⟩) =
      [subElem "biography" (encBiography ⟨""⟩)]) :=
  (c9_biography_omission ⟨⟨⟨"G"⟩, ⟨"F"⟩, ⟨"C"⟩⟩, some ⟨""⟩, none, none⟩).2.2 ⟨""⟩ rfl

/-- C10: malformed put-code — on GET work/employment with a put-code path
segment that does not parse as a decimal integer, the handler discards the
`strconv.Atoi` error, answers 200 (never a client error), and synthesizes a
body whose put-code field is 0. -/
theorem c10_malformed_putcode (path accept seg : String)
    (h : parseInt? seg = none) :
    (handleGetWork path accept seg).status = 200 ∧
    (handleGetWork path accept seg).body =
      (writeResponse path accept
        (jsonGenericWork ⟨"work", 0, ⟨⟨"Retrieved Mock Work"⟩⟩, ⟨⟨"2023"⟩⟩⟩)
        (xmlEncodeGenericWork ⟨"work", 0, ⟨⟨"Retrieved Mock Work"⟩⟩, ⟨⟨"2023"⟩⟩⟩)).2 ∧
    Json.lookupKey "put-code"
        (jsonGenericWork ⟨"work", 0, ⟨⟨"Retrieved Mock Work"⟩⟩, ⟨⟨"2023"⟩⟩⟩) =
      some (Json.num 0) ∧
    (handleGetEmployment path accept seg).status = 200 ∧
    (handleGetEmployment path accept seg).body =
      (writeResponse path accept
        (jsonGenericEmployment ⟨0, "Mock Department", "Mock Researcher", ⟨"Mock Org"⟩, ⟨⟨"2020"⟩⟩⟩)
        (xmlEncodeGenericEmployment ⟨0, "Mock Department", "Mock Researcher", ⟨"Mock Org"⟩, ⟨⟨"2020"⟩⟩⟩)).2 := by
  refine ⟨rfl, ?_, rfl, rfl, ?_⟩ <;>
    simp [handleGetWork, handleGetEmployment, h, okResponse]

theorem c10_witness :
    parseInt? "abc" = none ∧
    (handleGetWork "/v3.0/0000-0001-2345-6789/work/abc" "" "abc").status = 200 :=
  ⟨by decide, (c10_malformed_putcode "/v3.0/0000-0001-2345-6789/work/abc" "" "abc"
    (by decide)).1⟩

theorem str_append_ne_empty (a b : String) (ha : a ≠ "") : a ++ b ≠ "" := by
  intro hcontra
  apply ha
  have hd := congrArg String.data hcontra
  rw [String.data_append] at hd
  exact String.ext (List.append_eq_nil.mp hd).1

/-- C3 counterexample: in the main package's record model — the one every
endpoint serves — the seeded Sofia Garcia email encodes `visibility` as a
child element (carrying the value "PUBLIC") and carries no attributes at
all, contradicting the claim that visibility is rendered as an attribute
(not a child element) in the XML encoding of any record-model value. -/
theorem c3_counterexample :
    hasAttr "visibility"
      (subElem "email" (encEmail ⟨"sofia.garcia@mock.edu", true, true, "PUBLIC"⟩)) = false ∧
    hasChildElem "visibility"
      (subElem "email" (encEmail ⟨"sofia.garcia@mock.edu", true, true, "PUBLIC"⟩)) = true ∧
    strField "visibility" (encEmail ⟨"sofia.garcia@mock.edu", true, true, "PUBLIC"⟩) =
      "PUBLIC" := by
  refine ⟨by decide, by decide, by decide⟩

/-- C3 (amended): in the `models` package (models/person.go) visibility and
put-code are rendered as attributes on their owning element — not as child
elements — with their values preserved; in the main package's record model
(served by the endpoints) visibility and put-code are rendered as child
elements in XML and as ordinary object fields in JSON, again with the values
preserved across representations. -/
theorem c3_amended (r : Models.ResearcherUrl) (hv : r.visibility ≠ "")
    (hp : r.putCode ≠ "") (me : Models.Email) (hme : me.visibility ≠ "")
    (e : Email) (w : WorkSummary) :
    getAttr? "visibility" (Models.researcherUrlToXml r) = some r.visibility ∧
    getAttr? "put-code" (Models.researcherUrlToXml r) = some r.putCode ∧
    hasChildElem "visibility" (Models.researcherUrlToXml r) = false ∧
    hasChildElem "put-code" (Models.researcherUrlToXml r) = false ∧
    getAttr? "visibility" (Models.emailToXml me) = some me.visibility ∧
    strField "visibility" (encEmail e) = e.visibility ∧
    hasAttr "visibility" (subElem "email" (encEmail e)) = false ∧
    Json.lookupKey "visibility" (jsonEmail e) = some (Json.str e.visibility) ∧
    intField "put-code" (XNode.childrenOf (subElem "work-summary" (encWorkSummary w))) =
      some w.putCode ∧
    Json.lookupKey "put-code" (jsonWorkSummary w) = some (Json.num w.putCode) := by
  obtain ⟨v, pc, cd, lm, so, un, u⟩ := r
  refine ⟨?_, ?_, ?_, ?_, ?_, ?_, ?_, ?_, ?_, ?_⟩
  · simp only [Models.ResearcherUrl.visibility] at hv
    simp [getAttr?, XNode.attrsOf, Models.researcherUrlToXml, Models.optAttr, hv,
      alookup]
  · simp only [Models.ResearcherUrl.visibility, Models.ResearcherUrl.putCode] at hv hp
    simp [getAttr?, XNode.attrsOf, Models.researcherUrlToXml, Models.optAttr, hv,
      hp, alookup]
  · cases cd <;> cases lm <;> cases so <;>
      simp [hasChildElem, XNode.childrenOf, Models.researcherUrlToXml, elemsNamed,
        Models.optPtrStrElem, optChildren, XNode.isNamed, strElem, subElem]
  · cases cd <;> cases lm <;> cases so <;>
      simp [hasChildElem, XNode.childrenOf, Models.researcherUrlToXml, elemsNamed,
        Models.optPtrStrElem, optChildren, XNode.isNamed, strElem, subElem]
  · obtain ⟨mv, mcd, mlm, mso, mem⟩ := me
    simp only [Models.Email.visibility] at hme
    simp [getAttr?, XNode.attrsOf, Models.emailToXml, Models.optAttr, hme, alookup]
  · simp [strField, encEmail, lastMatch, XNode.isNamed, strElem, boolElem,
      textContent_strChildren]
  · simp [hasAttr, XNode.attrsOf, subElem]
  · simp [Json.lookupKey, jsonEmail, alookup]
  · simp [intField, XNode.childrenOf, subElem, encWorkSummary, lastMatch,
      XNode.isNamed, intElem, strElem, textContent, parseInt?_intToStr]
  · simp [Json.lookupKey, jsonWorkSummary, alookup]

theorem c3_amended_witness :
    getAttr? "visibility"
      (Models.researcherUrlToXml
        ⟨"PUBLIC", "123", none, none, none, "Personal Website", "https://x.mock"⟩) =
      some "PUBLIC" ∧
    getAttr? "put-code"
      (Models.researcherUrlToXml
        ⟨"PUBLIC", "123", none, none, none, "Personal Website", "https://x.mock"⟩) =
      some "123" := by
  obtain ⟨h1, h2, -⟩ :=
    c3_amended ⟨"PUBLIC", "123", none, none, none, "Personal Website", "https://x.mock"⟩
      (by decide) (by decide) ⟨"PUBLIC", none, none, none, "a@mock.edu"⟩ (by decide)
      ⟨"a@mock.edu", true, true, "PUBLIC"⟩
      ⟨123456, ⟨⟨"Mock Paper Title"⟩⟩, "journal-article", ⟨0⟩⟩
  exact ⟨h1, h2⟩

/-- C4 (amended): every POST to the work/employment endpoints answers 201
with a non-empty Location header; the generated put-code
`rand.Intn(999999) + 100000` appears in the Location URL and in the response
body, and lies in the interval [100000, 1099998] (not the claimed
[100000, 999099]). -/
theorem c4_amended (path accept orcid : String) (randDraw : Nat)
    (h : randDraw < 999999) :
    (handlePostWork path accept orcid randDraw).status = 201 ∧
    (handlePostWork path accept orcid randDraw).location =
      some ("https://api.orcid.org/v3.0/" ++ orcid ++ "/work/" ++
        intToStr (newPutCode randDraw)) ∧
    (handlePostWork path accept orcid randDraw).location ≠ some "" ∧
    (handlePostWork path accept orcid randDraw).body =
      (writeResponse path accept (jsonPutCodeResponse (newPutCode randDraw))
        (xmlPutCodeResponse (newPutCode randDraw))).2 ∧
    Json.lookupKey "put-code" (jsonPutCodeResponse (newPutCode randDraw)) =
      some (Json.num (newPutCode randDraw)) ∧
    intField "put-code" (XNode.childrenOf (xmlPutCodeResponse (newPutCode randDraw))) =
      some (newPutCode randDraw) ∧
    (handlePostEmployment path accept orcid randDraw).status = 201 ∧
    (handlePostEmployment path accept orcid randDraw).location =
      some ("https://api.orcid.org/v3.0/" ++ orcid ++ "/employment/" ++
        intToStr (newPutCode randDraw)) ∧
    (handlePostEmployment path accept orcid randDraw).location ≠ some "" ∧
    100000 ≤ newPutCode randDraw ∧ newPutCode randDraw ≤ 1099998 := by
  refine ⟨rfl, rfl, ?_, rfl, ?_, ?_, rfl, rfl, ?_, ?_, ?_⟩
  · intro hc
    have h2 : (handlePostWork path accept orcid randDraw).location =
        some ("https://api.orcid.org/v3.0/" ++ orcid ++ "/work/" ++
          intToStr (newPutCode randDraw)) := rfl
    rw [h2] at hc
    exact str_append_ne_empty _ _
      (str_append_ne_empty _ _ (str_append_ne_empty _ _ (by decide)))
      (Option.some.inj hc)
  · simp [Json.lookupKey, jsonPutCodeResponse, alookup]
  · simp [intField, XNode.childrenOf, xmlPutCodeResponse, lastMatch,
      XNode.isNamed, intElem, textContent, parseInt?_intToStr]
  · intro hc
    have h2 : (handlePostEmployment path accept orcid randDraw).location =
        some ("https://api.orcid.org/v3.0/" ++ orcid ++ "/employment/" ++
          intToStr (newPutCode randDraw)) := rfl
    rw [h2] at hc
    exact str_append_ne_empty _ _
      (str_append_ne_empty _ _ (str_append_ne_empty _ _ (by decide)))
      (Option.some.inj hc)
  · simp only [newPutCode]
    omega
  · simp only [newPutCode]
    omega

theorem c4_witness :
    (handlePostWork "/v3.0/0000-0001-2345-6789/work" "" "0000-0001-2345-6789" 0).status =
      201 ∧
    100000 ≤ newPutCode 0 ∧ newPutCode 0 ≤ 1099998 := by
  obtain ⟨h1, -, -, -, -, -, -, -, -, h10, h11⟩ :=
    c4_amended "/v3.0/0000-0001-2345-6789/work" "" "0000-0001-2345-6789" 0 (by decide)
  exact ⟨h1, h10, h11⟩

/-- C4 counterexample: the draw 999998 is a possible `rand.Intn(999999)`
result and yields put-code 1099998, which exceeds the claimed upper bound
999099 — the Location header then carries `.../work/1099998`. -/
theorem c4_counterexample :
    999998 < 999999 ∧
    newPutCode 999998 = 1099998 ∧
    ¬(newPutCode 999998 ≤ 999099) ∧
    (handlePostWork "/v3.0/0000-0001-2345-6789/work" "" "0000-0001-2345-6789"
        999998).location =
      some "https://api.orcid.org/v3.0/0000-0001-2345-6789/work/1099998" := by
  refine ⟨by decide, by decide, by decide, by decide⟩

/-- C6: record/person lookup — the response is HTTP 404 with a plain-text
body exactly when the identifier is not one of the six seeded ORCID ids;
for a seeded identifier the response is 200 carrying the stored FullRecord
(resp. its Person part) in the negotiated format. -/
theorem c6_lookup (now : Int) (path accept orcid : String) :
    (alookup orcid (seedStore now) = none ↔
      ¬ orcid ∈ ["0000-0001-2345-6789", "0000-0002-1001-2002", "0000-0003-3003-4004",
        "0000-0004-5005-6006", "0000-0005-7007-8008", "0000-0006-9009-0000"]) ∧
    (alookup orcid (seedStore now) = none →
      handleGetRecord (seedStore now) path accept orcid =
        httpError 404 "Record not found" ∧
      handleGetPerson (seedStore now) path accept orcid =
        httpError 404 "Person not found") ∧
    (∀ record, alookup orcid (seedStore now) = some record →
      handleGetRecord (seedStore now) path accept orcid =
        okResponse (writeResponse path accept (jsonOrcidRecord record)
          (xmlEncodeRecord record)) ∧
      handleGetPerson (seedStore now) path accept orcid =
        okResponse (writeResponse path accept (jsonPerson record.person)
          (xmlEncodePerson record.person))) := by
  refine ⟨?_, ?_, ?_⟩
  · simp only [seedStore, seedPeople, List.map_cons, List.map_nil, alookup]
    split_ifs with h1 h2 h3 h4 h5 h6 <;> simp_all [eq_comm]
  · intro h
    simp [handleGetRecord, handleGetPerson, h]
  · intro record h
    simp [handleGetRecord, handleGetPerson, h]

theorem c6_witness :
    handleGetRecord (seedStore 0) "/v3.0/9999-9999-9999-9999/record" ""
      "9999-9999-9999-9999" = httpError 404 "Record not found" :=
  (((c6_lookup 0 "/v3.0/9999-9999-9999-9999/record" "" "9999-9999-9999-9999").2.1)
    (by decide)).1
